import Mathlib

/-!
Shallow embedding of `src/components/GestureController.tsx` (repository
bxftan90/christmas): the pose classifier, the debounced state machine and the
camera mapper inside `processGestures`, together with the `hands.onResults`
delivery guard.

Coordinates are exact rationals.  The source compares `Math.hypot` values
(Euclidean distances); here every such comparison is decided on squared
distances, which is equivalent over exact reals because both sides of each
comparison are nonnegative.  The bridge to the real square root is proved in
`fingerIsOpen_iff_euclid` and `isPinchingOf_iff_euclid` below.
-/

set_option maxRecDepth 8000

namespace GestureController

/-- Joint: one normalized hand landmark with planar coordinates.  The source
reads only `x` and `y` of each landmark; depth, if present, is unused. -/
structure Joint where
  x : ℚ
  y : ℚ
  deriving DecidableEq, Repr

/-- TreeState.  Modelled from the spec: the discrete mode enumeration
`{TREE_SHAPE, SCATTERED, PHOTO_VIEW}` declared in `../types` (imported by the
controller; that file only declares the enum used here). -/
inductive TreeState where
  | TREE_SHAPE
  | SCATTERED
  | PHOTO_VIEW
  deriving DecidableEq, Repr

/-- MachineState: the two mutable refs owned by the controller,
`currentStateRef` (initialized to `TreeState.TREE_SHAPE`) and
`lastGestureTime` (initialized to `0`); timestamps are `Date.now()`
milliseconds, modelled as integers. -/
structure MachineState where
  currentState : TreeState
  lastGestureTime : ℤ
  deriving DecidableEq, Repr

/-- initialState: `currentStateRef = TREE_SHAPE`, `lastGestureTime = 0`. -/
def initialState : MachineState :=
  ⟨TreeState.TREE_SHAPE, 0⟩

/-- Event: one callback invocation to the sink — `onStateChange`,
`onCameraMove` or `onPhotoGrab`. -/
inductive Event where
  | stateChange (s : TreeState)
  | cameraMove (x y : ℚ)
  | photoGrab (g : Bool)
  deriving DecidableEq, Repr

/-- dist2 p q: the square of `Math.hypot(p.x - q.x, p.y - q.y)`. -/
def dist2 (p q : Joint) : ℚ :=
  (p.x - q.x) ^ 2 + (p.y - q.y) ^ 2

/-- fingerIsOpen mirrors `distTip > distKnuckle * 1.2` where both distances
are `Math.hypot` values measured from the wrist; the comparison is decided on
squares (`1.2 = 6/5`), equivalent since both sides are nonnegative. -/
def fingerIsOpen (wrist tip knuckle : Joint) : Bool :=
  decide (dist2 knuckle wrist * (6 / 5 : ℚ) ^ 2 < dist2 tip wrist)

/-- fingersOpenCount mirrors the `forEach` over `tips = [8, 12, 16, 20]` and
`mcp = [5, 9, 13, 17]` incrementing a counter; the thumb is not inspected. -/
def fingersOpenCount (f : Fin 21 → Joint) : ℕ :=
  (if fingerIsOpen (f 0) (f 8) (f 5) then 1 else 0) +
  (if fingerIsOpen (f 0) (f 12) (f 9) then 1 else 0) +
  (if fingerIsOpen (f 0) (f 16) (f 13) then 1 else 0) +
  (if fingerIsOpen (f 0) (f 20) (f 17) then 1 else 0)

/-- isPinchingOf mirrors `pinchDist < 0.05` with `thumbTip = landmarks[4]` and
`indexTip = landmarks[8]`; squared form of the hypot comparison
(`0.05 = 1/20`). -/
def isPinchingOf (f : Fin 21 → Joint) : Bool :=
  decide (dist2 (f 4) (f 8) < (1 / 20 : ℚ) ^ 2)

/-- ruleTarget: the `newState` value produced by the if/else chain of the
state machine logic (rule 1: pinch while SCATTERED; rule 2: open palm;
rule 3: fist; otherwise the current state is kept). -/
def ruleTarget (cur : TreeState) (fingersOpen : ℕ) (isPinching : Bool) : TreeState :=
  if isPinching = true ∧ cur = TreeState.SCATTERED then TreeState.PHOTO_VIEW
  else if 4 ≤ fingersOpen then TreeState.SCATTERED
  else if fingersOpen = 0 ∧ isPinching = false then TreeState.TREE_SHAPE
  else cur

/-- ruleGrab: the argument passed to `onPhotoGrab` by the same if/else chain,
or `none` when no branch is taken. -/
def ruleGrab (cur : TreeState) (fingersOpen : ℕ) (isPinching : Bool) : Option Bool :=
  if isPinching = true ∧ cur = TreeState.SCATTERED then some true
  else if 4 ≤ fingersOpen then some false
  else if fingersOpen = 0 ∧ isPinching = false then some false
  else none

/-- grabEventsOf: the onPhotoGrab invocations of one tick (at most one), as
determined by the if/else chain. -/
def grabEventsOf (cur : TreeState) (fingersOpen : ℕ) (isPinching : Bool) : List Event :=
  match ruleGrab cur fingersOpen isPinching with
  | some b => [Event.photoGrab b]
  | none => []

/-- cameraEvents mirrors the camera control block at the end of
`processGestures`: `onCameraMove((0.5 - wrist.x) * 4, (0.5 - wrist.y) * 2)` is
called iff the (possibly just updated) current state is SCATTERED. -/
def cameraEvents (s : TreeState) (wrist : Joint) : List Event :=
  if s = TreeState.SCATTERED then
    [Event.cameraMove ((1 / 2 - wrist.x) * 4) ((1 / 2 - wrist.y) * 2)]
  else []

/-- frameOf views a landmark list holding at least the 21 expected entries as
a total frame of joints. -/
def frameOf (lm : List Joint) (h : 21 ≤ lm.length) : Fin 21 → Joint :=
  fun i => lm.get ⟨i.val, lt_of_lt_of_le i.isLt h⟩

/-- stepCore: the body of `processGestures` after the rate-limit gate, on a
well-formed frame — classification, the state-machine if/else chain, the
commit block (`if (newState !== currentStateRef.current) {...}`), then camera
control.  Events appear in source call order: `onPhotoGrab`, then
`onStateChange`, then `onCameraMove`. -/
def stepCore (st : MachineState) (f : Fin 21 → Joint) (now : ℤ) :
    MachineState × List Event :=
  let fingersOpen := fingersOpenCount f
  let isPinching := isPinchingOf f
  let grabEvents := grabEventsOf st.currentState fingersOpen isPinching
  let newState := ruleTarget st.currentState fingersOpen isPinching
  let st2 : MachineState :=
    if newState ≠ st.currentState then ⟨newState, now⟩ else st
  let changeEvents : List Event :=
    if newState ≠ st.currentState then [Event.stateChange newState] else []
  (st2, grabEvents ++ changeEvents ++ cameraEvents st2.currentState (f 0))

/-- processGestures: first `if (now - lastGestureTime.current < 500) return;`,
then the landmark accesses.  The source reads indices 0, 4, 5, 8, 9, 12, 13,
16, 17 and 20 of the landmark array with no length guard; on a list with
fewer than 21 entries index 20 (among others) is absent, so the source
dereferences `undefined` and throws a TypeError before invoking any callback
or mutating either ref — modelled as the error result. -/
def processGestures (st : MachineState) (lm : List Joint) (now : ℤ) :
    Except Unit (MachineState × List Event) :=
  if now - st.lastGestureTime < 500 then Except.ok (st, [])
  else if h : lm.length < 21 then Except.error ()
  else Except.ok (stepCore st (frameOf lm (by omega)) now)

/-- onResults: the `hands.onResults` callback forwards the first hand's
landmark list to `processGestures` whenever `multiHandLandmarks` is present
and nonempty; otherwise nothing happens that tick. -/
def onResults (st : MachineState) (frame : Option (List Joint)) (now : ℤ) :
    Except Unit (MachineState × List Event) :=
  match frame with
  | none => Except.ok (st, [])
  | some lm => processGestures st lm now

/-- euclidDist: the spec-side Euclidean planar distance
`Math.hypot(p.x - q.x, p.y - q.y)`, used to state the classifier claims in
the spec's own terms. -/
noncomputable def euclidDist (p q : Joint) : ℝ :=
  Real.sqrt (((p.x : ℝ) - (q.x : ℝ)) ^ 2 + ((p.y : ℝ) - (q.y : ℝ)) ^ 2)

/-- fillerJoint: a joint at the origin used for the landmark indices the
controller never reads. -/
def fillerJoint : Joint :=
  ⟨0, 0⟩

/-- openPalmFrame: a concrete 21-joint frame with all four non-thumb fingers
open and the thumb far from the index tip — classifies to
`fingersOpen = 4`, `isPinching = false` (rule 2, open palm). -/
def openPalmFrame : List Joint :=
  [⟨0, 0⟩, fillerJoint, fillerJoint, fillerJoint, ⟨-1, -1⟩,
   ⟨1 / 2, 0⟩, fillerJoint, fillerJoint, ⟨1, 0⟩,
   ⟨0, 1 / 2⟩, fillerJoint, fillerJoint, ⟨0, 1⟩,
   ⟨-1 / 2, 0⟩, fillerJoint, fillerJoint, ⟨-1, 0⟩,
   ⟨0, -1 / 2⟩, fillerJoint, fillerJoint, ⟨0, -1⟩]

/-- fistFrame: a concrete 21-joint frame with every fingertip closer to the
wrist than its knuckle and the thumb far from the index tip — classifies to
`fingersOpen = 0`, `isPinching = false` (rule 3, fist). -/
def fistFrame : List Joint :=
  [⟨0, 0⟩, fillerJoint, fillerJoint, fillerJoint, ⟨-1, 0⟩,
   ⟨1 / 2, 0⟩, fillerJoint, fillerJoint, ⟨1 / 10, 0⟩,
   ⟨0, 1 / 2⟩, fillerJoint, fillerJoint, ⟨0, 1 / 10⟩,
   ⟨-1 / 2, 0⟩, fillerJoint, fillerJoint, ⟨-1 / 10, 0⟩,
   ⟨0, -1 / 2⟩, fillerJoint, fillerJoint, ⟨0, -1 / 10⟩]

/-- pinchFrame: a concrete 21-joint frame with all fingers closed and the
thumb tip on the index tip — classifies to `fingersOpen = 0`,
`isPinching = true` (rule 1 when the machine is in SCATTERED). -/
def pinchFrame : List Joint :=
  [⟨0, 0⟩, fillerJoint, fillerJoint, fillerJoint, ⟨1 / 10, 0⟩,
   ⟨1 / 2, 0⟩, fillerJoint, fillerJoint, ⟨1 / 10, 0⟩,
   ⟨0, 1 / 2⟩, fillerJoint, fillerJoint, ⟨0, 1 / 10⟩,
   ⟨-1 / 2, 0⟩, fillerJoint, fillerJoint, ⟨-1 / 10, 0⟩,
   ⟨0, -1 / 2⟩, fillerJoint, fillerJoint, ⟨0, -1 / 10⟩]

/-- oneOpenFrame: a concrete 21-joint frame with only the index finger open
and no pinch — classifies to `fingersOpen = 1`, `isPinching = false`
(ambiguous pose: no transition rule matches). -/
def oneOpenFrame : List Joint :=
  [⟨0, 0⟩, fillerJoint, fillerJoint, fillerJoint, ⟨1, 1⟩,
   ⟨0, 1 / 2⟩, fillerJoint, fillerJoint, ⟨0, 1⟩,
   ⟨1 / 2, 0⟩, fillerJoint, fillerJoint, ⟨1 / 10, 0⟩,
   ⟨-1 / 2, 0⟩, fillerJoint, fillerJoint, ⟨-1 / 10, 0⟩,
   ⟨0, -1 / 2⟩, fillerJoint, fillerJoint, ⟨0, -1 / 10⟩]

/-- shortFrame: a malformed landmark list with a single joint (fewer than the
21 entries the controller dereferences). -/
def shortFrame : List Joint :=
  [⟨1 / 2, 1 / 2⟩]

deriving instance DecidableEq for Except

/-- stepCore_fst: the machine state coming out of one gate-passed tick. -/
theorem stepCore_fst (st : MachineState) (f : Fin 21 → Joint) (now : ℤ) :
    (stepCore st f now).1 =
      if ruleTarget st.currentState (fingersOpenCount f) (isPinchingOf f) ≠ st.currentState
      then ⟨ruleTarget st.currentState (fingersOpenCount f) (isPinchingOf f), now⟩
      else st := rfl

/-- stepCore_snd: the event list of one gate-passed tick, in call order. -/
theorem stepCore_snd (st : MachineState) (f : Fin 21 → Joint) (now : ℤ) :
    (stepCore st f now).2 =
      grabEventsOf st.currentState (fingersOpenCount f) (isPinchingOf f) ++
      (if ruleTarget st.currentState (fingersOpenCount f) (isPinchingOf f) ≠ st.currentState
        then [Event.stateChange (ruleTarget st.currentState (fingersOpenCount f) (isPinchingOf f))]
        else []) ++
      cameraEvents ((stepCore st f now).1).currentState (f 0) := rfl

/-- stateChange_not_mem_grab: the photoGrab block never emits a state change. -/
theorem stateChange_not_mem_grab (cur : TreeState) (fo : ℕ) (p : Bool) (s : TreeState) :
    Event.stateChange s ∉ grabEventsOf cur fo p := by
  unfold grabEventsOf
  cases ruleGrab cur fo p <;> simp

/-- cameraMove_not_mem_grab: the photoGrab block never emits a camera event. -/
theorem cameraMove_not_mem_grab (cur : TreeState) (fo : ℕ) (p : Bool) (x y : ℚ) :
    Event.cameraMove x y ∉ grabEventsOf cur fo p := by
  unfold grabEventsOf
  cases ruleGrab cur fo p <;> simp

/-- photoGrab_mem_grab: when the if/else chain picks a branch, exactly that
photoGrab value appears in the photoGrab block. -/
theorem photoGrab_mem_grab (cur : TreeState) (fo : ℕ) (p : Bool) (b : Bool)
    (hr : ruleGrab cur fo p = some b) :
    Event.photoGrab b ∈ grabEventsOf cur fo p := by
  unfold grabEventsOf
  rw [hr]
  simp

/-- processGestures_early: the rate-limit gate fires and nothing happens. -/
theorem processGestures_early (st : MachineState) (lm : List Joint) (now : ℤ)
    (h : now - st.lastGestureTime < 500) :
    processGestures st lm now = Except.ok (st, []) := by
  unfold processGestures
  rw [if_pos h]

/-- processGestures_of_ge: past the gate on a well-formed frame, the tick is stepCore. -/
theorem processGestures_of_ge (st : MachineState) (lm : List Joint) (now : ℤ)
    (hg : 500 ≤ now - st.lastGestureTime) (hl : 21 ≤ lm.length) :
    processGestures st lm now = Except.ok (stepCore st (frameOf lm hl) now) := by
  unfold processGestures
  rw [if_neg (by omega), dif_neg (by omega)]

/-- ok_inv: injectivity of the ok constructor on tick results. -/
theorem ok_inv {p q : MachineState × List Event}
    (h : (Except.ok p : Except Unit (MachineState × List Event)) = Except.ok q) : p = q := by
  injection h

/-- ruleTarget_no_rule: an ambiguous pose (1..3 open fingers, no pinch) requests no state. -/
theorem ruleTarget_no_rule (cur : TreeState) (fo : ℕ) (h1 : 1 ≤ fo) (h3 : fo ≤ 3) :
    ruleTarget cur fo false = cur := by
  unfold ruleTarget
  rw [if_neg (by simp), if_neg (by omega), if_neg ?third]
  rintro ⟨h0, h⟩
  omega

/-- ruleGrab_no_rule: an ambiguous pose emits no photoGrab value. -/
theorem ruleGrab_no_rule (cur : TreeState) (fo : ℕ) (h1 : 1 ≤ fo) (h3 : fo ≤ 3) :
    ruleGrab cur fo false = none := by
  unfold ruleGrab
  rw [if_neg (by simp), if_neg (by omega), if_neg ?third]
  rintro ⟨h0, h⟩
  omega

/-- ruleTarget_eq_photo_view: PHOTO_VIEW is requested only by rule 1 or kept by
fallthrough from PHOTO_VIEW itself. -/
theorem ruleTarget_eq_photo_view (cur : TreeState) (fo : ℕ) (p : Bool)
    (h : ruleTarget cur fo p = TreeState.PHOTO_VIEW) :
    (p = true ∧ cur = TreeState.SCATTERED) ∨ cur = TreeState.PHOTO_VIEW := by
  unfold ruleTarget at h
  by_cases hA : p = true ∧ cur = TreeState.SCATTERED
  · exact Or.inl hA
  · rw [if_neg hA] at h
    by_cases hB : 4 ≤ fo
    · rw [if_pos hB] at h
      exact absurd h (by simp)
    · rw [if_neg hB] at h
      by_cases hC : fo = 0 ∧ p = false
      · rw [if_pos hC] at h
        exact absurd h (by simp)
      · rw [if_neg hC] at h
        exact Or.inr h

/-- stateChange_not_mem_camera: the camera block never emits a state change. -/
theorem stateChange_not_mem_camera (s : TreeState) (c : TreeState) (w : Joint) :
    Event.stateChange s ∉ cameraEvents c w := by
  unfold cameraEvents
  by_cases hc : c = TreeState.SCATTERED
  · rw [if_pos hc]
    simp
  · rw [if_neg hc]
    simp

/-- cameraMove_not_mem_camera_of_ne: no camera event outside SCATTERED. -/
theorem cameraMove_not_mem_camera_of_ne (c : TreeState) (w : Joint)
    (h : c ≠ TreeState.SCATTERED) (x y : ℚ) :
    Event.cameraMove x y ∉ cameraEvents c w := by
  unfold cameraEvents
  rw [if_neg h]
  exact List.not_mem_nil _

/-- C10: on any invocation of the per-tick step whose timestamp satisfies
0 ≤ now - lastGestureTime < 500, the step returns at the rate-limit gate
before any classification: no callback at all is invoked that tick and
currentState and lastGestureTime are unchanged. -/
theorem C10_rate_limit_early_return (st : MachineState) (lm : List Joint) (now : ℤ)
    (_h0 : 0 ≤ now - st.lastGestureTime) (h1 : now - st.lastGestureTime < 500) :
    processGestures st lm now = Except.ok (st, []) :=
  processGestures_early st lm now h1

/-- C10 witness: a tick 100 ms after start is dropped whole. -/
theorem C10_rate_limit_early_return_witness :
    processGestures initialState openPalmFrame 100 = Except.ok (initialState, []) :=
  C10_rate_limit_early_return initialState openPalmFrame 100 (by decide) (by decide)

/-- C4 counterexample: with lastGestureTime = 1000 and the clock gone back to
now = 400, a fist frame whose target (TREE_SHAPE) differs from the current
state (SCATTERED) commits nothing — the tick is dropped at the gate — even
though the claim says the transition is allowed to commit; the second
conjunct shows the same frame does commit TREE_SHAPE once the window has
elapsed, so its target really differs from the current state. -/
theorem C4_counterexample :
    processGestures ⟨TreeState.SCATTERED, 1000⟩ fistFrame 400 =
        Except.ok (⟨TreeState.SCATTERED, 1000⟩, []) ∧
    processGestures ⟨TreeState.SCATTERED, 1000⟩ fistFrame 1500 =
        Except.ok (⟨TreeState.TREE_SHAPE, 1500⟩,
          [Event.photoGrab false, Event.stateChange TreeState.TREE_SHAPE]) := by
  constructor
  · with_unfolding_all decide
  · with_unfolding_all decide

/-- C4 (amended): when now is earlier than lastGestureTime the difference is
negative, so the rate-limit test `now - lastGestureTime < 500` fires and the
tick is skipped wholesale: no classification, no callback, no commit. -/
theorem C4_backward_clock_blocks (st : MachineState) (lm : List Joint) (now : ℤ)
    (h : now < st.lastGestureTime) :
    processGestures st lm now = Except.ok (st, []) :=
  processGestures_early st lm now (by omega)

/-- C4 witness: the backward-clock tick of the counterexample, via the
amended theorem. -/
theorem C4_backward_clock_blocks_witness :
    processGestures ⟨TreeState.SCATTERED, 1000⟩ fistFrame 400 =
      Except.ok (⟨TreeState.SCATTERED, 1000⟩, []) :=
  C4_backward_clock_blocks ⟨TreeState.SCATTERED, 1000⟩ fistFrame 400 (by decide)

/-- C3 counterexample: a delivered malformed frame (1 joint < 21) on a
gate-passing tick is not treated as "no hand detected": the landmark
dereference throws instead of emitting nothing and returning normally. -/
theorem C3_counterexample :
    shortFrame.length < 21 ∧
    onResults initialState (some shortFrame) 600 = Except.error () := by
  constructor
  · decide
  · with_unfolding_all decide

/-- C3 (amended): a malformed frame is not guarded against.  Inside the
rate-limit window it is skipped harmlessly by the early return, but on a
gate-passing tick the landmark dereference throws (before any callback or
state mutation) instead of the tick being treated as "no hand detected". -/
theorem C3_malformed_frame (st : MachineState) (lm : List Joint) (now : ℤ)
    (hm : lm.length < 21) :
    (500 ≤ now - st.lastGestureTime → processGestures st lm now = Except.error ()) ∧
    (now - st.lastGestureTime < 500 → processGestures st lm now = Except.ok (st, [])) := by
  constructor
  · intro hg
    unfold processGestures
    rw [if_neg (by omega), dif_pos hm]
  · intro hg
    exact processGestures_early st lm now hg

/-- C3 witness: the malformed single-joint frame at a gate-passing time
throws, via the amended theorem. -/
theorem C3_malformed_frame_witness :
    processGestures initialState shortFrame 600 = Except.error () :=
  (C3_malformed_frame initialState shortFrame 600 (by decide)).1 (by decide)

/-- C5: a target state is committed (state-change event emitted, machine state
updated to the target with lastGestureTime = now) iff the target differs from
the current state and now - lastGestureTime ≥ 500; otherwise the machine
state is unchanged — in particular a second differing target arriving less
than 500 ms after a committed transition emits no onStateChange. -/
theorem C5_commit_iff (st : MachineState) (lm : List Joint) (now : ℤ)
    (h : 21 ≤ lm.length) (st' : MachineState) (evs : List Event)
    (hrun : processGestures st lm now = Except.ok (st', evs)) :
    ((∃ s, Event.stateChange s ∈ evs) ↔
      (ruleTarget st.currentState (fingersOpenCount (frameOf lm h))
          (isPinchingOf (frameOf lm h)) ≠ st.currentState ∧
        500 ≤ now - st.lastGestureTime)) ∧
    (ruleTarget st.currentState (fingersOpenCount (frameOf lm h))
        (isPinchingOf (frameOf lm h)) ≠ st.currentState ∧
      500 ≤ now - st.lastGestureTime →
      st' = ⟨ruleTarget st.currentState (fingersOpenCount (frameOf lm h))
          (isPinchingOf (frameOf lm h)), now⟩ ∧
        Event.stateChange (ruleTarget st.currentState (fingersOpenCount (frameOf lm h))
          (isPinchingOf (frameOf lm h))) ∈ evs) ∧
    (¬(ruleTarget st.currentState (fingersOpenCount (frameOf lm h))
        (isPinchingOf (frameOf lm h)) ≠ st.currentState ∧
        500 ≤ now - st.lastGestureTime) →
      st' = st) := by
  by_cases hg : now - st.lastGestureTime < 500
  · rw [processGestures_early st lm now hg] at hrun
    have hpair := ok_inv hrun
    have hst : st = st' := congrArg Prod.fst hpair
    have hevs : ([] : List Event) = evs := congrArg Prod.snd hpair
    refine ⟨⟨?_, ?_⟩, ?_, ?_⟩
    · rintro ⟨s, hs⟩
      rw [← hevs] at hs
      exact absurd hs (List.not_mem_nil _)
    · rintro ⟨-, hge⟩
      omega
    · rintro ⟨-, hge⟩
      exact absurd hge (by omega)
    · intro _
      exact hst.symm
  · rw [processGestures_of_ge st lm now (by omega) h] at hrun
    have hpair := ok_inv hrun
    have hst : (stepCore st (frameOf lm h) now).1 = st' := congrArg Prod.fst hpair
    have hevs : (stepCore st (frameOf lm h) now).2 = evs := congrArg Prod.snd hpair
    rw [stepCore_snd, stepCore_fst] at hevs
    rw [stepCore_fst] at hst
    by_cases hc : ruleTarget st.currentState (fingersOpenCount (frameOf lm h))
        (isPinchingOf (frameOf lm h)) ≠ st.currentState
    · rw [if_pos hc] at hst
      rw [if_pos hc, if_pos hc] at hevs
      have hmem : Event.stateChange (ruleTarget st.currentState
          (fingersOpenCount (frameOf lm h)) (isPinchingOf (frameOf lm h))) ∈ evs := by
        rw [← hevs]
        exact List.mem_append.2 (Or.inl (List.mem_append.2 (Or.inr (by simp))))
      refine ⟨⟨?_, ?_⟩, ?_, ?_⟩
      · intro _
        exact ⟨hc, by omega⟩
      · intro _
        exact ⟨_, hmem⟩
      · intro _
        exact ⟨hst.symm, hmem⟩
      · intro hcontra
        exact absurd ⟨hc, by omega⟩ hcontra
    · rw [if_neg hc] at hst
      rw [if_neg hc, if_neg hc] at hevs
      rw [List.append_nil] at hevs
      refine ⟨⟨?_, ?_⟩, ?_, ?_⟩
      · rintro ⟨s, hs⟩
        rw [← hevs] at hs
        rcases List.mem_append.1 hs with h' | h'
        · exact absurd h' (stateChange_not_mem_grab _ _ _ _)
        · exact absurd h' (stateChange_not_mem_camera _ _ _)
      · rintro ⟨hne, -⟩
        exact absurd hne hc
      · rintro ⟨hne, -⟩
        exact absurd hne hc
      · intro _
        exact hst.symm

/-- C5 witness: an open palm in TREE_SHAPE at now = 600 (gate elapsed) commits
SCATTERED and emits the state change. -/
theorem C5_commit_iff_witness :
    ∃ s, Event.stateChange s ∈
      [Event.photoGrab false, Event.stateChange TreeState.SCATTERED, Event.cameraMove 2 1] :=
  ((C5_commit_iff ⟨TreeState.TREE_SHAPE, 0⟩ openPalmFrame 600 (by decide)
      ⟨TreeState.SCATTERED, 600⟩
      [Event.photoGrab false, Event.stateChange TreeState.SCATTERED, Event.cameraMove 2 1]
      (by with_unfolding_all decide)).1).mpr
    ⟨by with_unfolding_all decide, by decide⟩

/-- C6: for every processed tick, the machine can only be in PHOTO_VIEW
afterwards if it already was in PHOTO_VIEW or it was in SCATTERED and the
frame classified as pinching; in particular a pinch classified while in
TREE_SHAPE (or PHOTO_VIEW) never causes a transition to PHOTO_VIEW, so from
the initial TREE_SHAPE state PHOTO_VIEW is reachable only through SCATTERED
with a pinch. -/
theorem C6_photo_view_reachability (st : MachineState) (lm : List Joint) (now : ℤ)
    (st' : MachineState) (evs : List Event)
    (hrun : processGestures st lm now = Except.ok (st', evs))
    (hpv : st'.currentState = TreeState.PHOTO_VIEW) :
    st.currentState = TreeState.PHOTO_VIEW ∨
      (st.currentState = TreeState.SCATTERED ∧
        ∃ hl : 21 ≤ lm.length, isPinchingOf (frameOf lm hl) = true) := by
  by_cases hg : now - st.lastGestureTime < 500
  · rw [processGestures_early st lm now hg] at hrun
    have hst : st = st' := congrArg Prod.fst (ok_inv hrun)
    left
    rw [hst]
    exact hpv
  · by_cases hm : lm.length < 21
    · have herr : processGestures st lm now = Except.error () := by
        unfold processGestures
        rw [if_neg hg, dif_pos hm]
      rw [herr] at hrun
      exact absurd hrun (by simp)
    · have hl : 21 ≤ lm.length := by omega
      rw [processGestures_of_ge st lm now (by omega) hl] at hrun
      have hst : (stepCore st (frameOf lm hl) now).1 = st' :=
        congrArg Prod.fst (ok_inv hrun)
      rw [stepCore_fst] at hst
      by_cases hc : ruleTarget st.currentState (fingersOpenCount (frameOf lm hl))
          (isPinchingOf (frameOf lm hl)) ≠ st.currentState
      · rw [if_pos hc] at hst
        have htar : ruleTarget st.currentState (fingersOpenCount (frameOf lm hl))
            (isPinchingOf (frameOf lm hl)) = TreeState.PHOTO_VIEW := by
          rw [← hst] at hpv
          exact hpv
        rcases ruleTarget_eq_photo_view _ _ _ htar with ⟨hpin, hsc⟩ | hphoto
        · exact Or.inr ⟨hsc, ⟨hl, hpin⟩⟩
        · exact Or.inl hphoto
      · rw [if_neg hc] at hst
        left
        rw [hst]
        exact hpv

/-- C6 witness: a pinch processed in SCATTERED does transition, landing in the
pinch-while-SCATTERED disjunct. -/
theorem C6_photo_view_reachability_witness :
    (⟨TreeState.SCATTERED, 0⟩ : MachineState).currentState = TreeState.PHOTO_VIEW ∨
      ((⟨TreeState.SCATTERED, 0⟩ : MachineState).currentState = TreeState.SCATTERED ∧
        ∃ hl : 21 ≤ pinchFrame.length, isPinchingOf (frameOf pinchFrame hl) = true) :=
  C6_photo_view_reachability ⟨TreeState.SCATTERED, 0⟩ pinchFrame 600
    ⟨TreeState.PHOTO_VIEW, 600⟩
    [Event.photoGrab true, Event.stateChange TreeState.PHOTO_VIEW]
    (by with_unfolding_all decide) (by decide)

/-- C9: a processed frame classifying to fingersOpen in 1..3 without a pinch
fires no transition rule: the machine state (currentState and
lastGestureTime) is unchanged and no onStateChange is emitted that tick. -/
theorem C9_ambiguous_no_rule (st : MachineState) (lm : List Joint) (now : ℤ)
    (h : 21 ≤ lm.length) (st' : MachineState) (evs : List Event)
    (hrun : processGestures st lm now = Except.ok (st', evs))
    (h1 : 1 ≤ fingersOpenCount (frameOf lm h)) (h3 : fingersOpenCount (frameOf lm h) ≤ 3)
    (hp : isPinchingOf (frameOf lm h) = false) :
    st' = st ∧ ∀ s, Event.stateChange s ∉ evs := by
  by_cases hg : now - st.lastGestureTime < 500
  · rw [processGestures_early st lm now hg] at hrun
    have hpair := ok_inv hrun
    have hst : st = st' := congrArg Prod.fst hpair
    have hevs : ([] : List Event) = evs := congrArg Prod.snd hpair
    refine ⟨hst.symm, ?_⟩
    intro s hs
    rw [← hevs] at hs
    exact absurd hs (List.not_mem_nil _)
  · rw [processGestures_of_ge st lm now (by omega) h] at hrun
    have hpair := ok_inv hrun
    have hst : (stepCore st (frameOf lm h) now).1 = st' := congrArg Prod.fst hpair
    have hevs : (stepCore st (frameOf lm h) now).2 = evs := congrArg Prod.snd hpair
    have htar : ruleTarget st.currentState (fingersOpenCount (frameOf lm h))
        (isPinchingOf (frameOf lm h)) = st.currentState := by
      rw [hp]
      exact ruleTarget_no_rule _ _ h1 h3
    have hnc : ¬(ruleTarget st.currentState (fingersOpenCount (frameOf lm h))
        (isPinchingOf (frameOf lm h)) ≠ st.currentState) := fun hh => hh htar
    rw [stepCore_fst, if_neg hnc] at hst
    rw [stepCore_snd, stepCore_fst, if_neg hnc, if_neg hnc, List.append_nil] at hevs
    refine ⟨hst.symm, ?_⟩
    intro s hs
    rw [← hevs] at hs
    rcases List.mem_append.1 hs with h' | h'
    · exact absurd h' (stateChange_not_mem_grab _ _ _ _)
    · exact absurd h' (stateChange_not_mem_camera _ _ _)

/-- C9 witness: the one-open-finger frame processed in SCATTERED leaves the
state untouched and emits only a camera event. -/
theorem C9_ambiguous_no_rule_witness :
    (⟨TreeState.SCATTERED, 0⟩ : MachineState) = ⟨TreeState.SCATTERED, 0⟩ ∧
      ∀ s, Event.stateChange s ∉ [Event.cameraMove 2 1] :=
  C9_ambiguous_no_rule ⟨TreeState.SCATTERED, 0⟩ oneOpenFrame 600 (by decide)
    ⟨TreeState.SCATTERED, 0⟩ [Event.cameraMove 2 1]
    (by with_unfolding_all decide) (by with_unfolding_all decide)
    (by with_unfolding_all decide) (by with_unfolding_all decide)

/-- C1 counterexample: with lastGestureTime = 1000, a fist frame (rule 3
matches: fingersOpen = 0, no pinch) delivered at now = 1100 — inside the
500 ms window — emits no onPhotoGrab(false) at all, contradicting the claim
that the emission happens regardless of the debounce window; the second
conjunct shows the same frame at now = 1600 does emit onPhotoGrab(false)
(with no state commit, exhibiting the same-state re-emission). -/
theorem C1_counterexample :
    processGestures ⟨TreeState.TREE_SHAPE, 1000⟩ fistFrame 1100 =
        Except.ok (⟨TreeState.TREE_SHAPE, 1000⟩, []) ∧
    processGestures ⟨TreeState.TREE_SHAPE, 1000⟩ fistFrame 1600 =
        Except.ok (⟨TreeState.TREE_SHAPE, 1000⟩, [Event.photoGrab false]) := by
  constructor
  · with_unfolding_all decide
  · with_unfolding_all decide

/-- C1 (amended): on every tick that passes the 500 ms rate-limit gate with a
well-formed frame, rule 1 emits onPhotoGrab(true) and rules 2/3 emit
onPhotoGrab(false), regardless of whether the requested state equals the
current state (no same-state suppression for photoGrab); ticks inside the
window are skipped wholesale and emit nothing. -/
theorem C1_photoGrab_emission (st : MachineState) (lm : List Joint) (now : ℤ)
    (h : 21 ≤ lm.length) (hg : 500 ≤ now - st.lastGestureTime)
    (st' : MachineState) (evs : List Event)
    (hrun : processGestures st lm now = Except.ok (st', evs)) :
    (isPinchingOf (frameOf lm h) = true ∧ st.currentState = TreeState.SCATTERED →
        Event.photoGrab true ∈ evs) ∧
    (¬(isPinchingOf (frameOf lm h) = true ∧ st.currentState = TreeState.SCATTERED) →
        4 ≤ fingersOpenCount (frameOf lm h) → Event.photoGrab false ∈ evs) ∧
    (¬(isPinchingOf (frameOf lm h) = true ∧ st.currentState = TreeState.SCATTERED) →
        fingersOpenCount (frameOf lm h) = 0 → isPinchingOf (frameOf lm h) = false →
        Event.photoGrab false ∈ evs) := by
  rw [processGestures_of_ge st lm now hg h] at hrun
  have hevs : (stepCore st (frameOf lm h) now).2 = evs := congrArg Prod.snd (ok_inv hrun)
  rw [stepCore_snd] at hevs
  have hmem : ∀ b, ruleGrab st.currentState (fingersOpenCount (frameOf lm h))
      (isPinchingOf (frameOf lm h)) = some b → Event.photoGrab b ∈ evs := by
    intro b hb
    rw [← hevs]
    exact List.mem_append.2 (Or.inl (List.mem_append.2
      (Or.inl (photoGrab_mem_grab _ _ _ _ hb))))
  refine ⟨?_, ?_, ?_⟩
  · intro hcond
    refine hmem true ?_
    unfold ruleGrab
    rw [if_pos hcond]
  · intro hnot h4
    refine hmem false ?_
    unfold ruleGrab
    rw [if_neg hnot, if_pos h4]
  · intro hnot h0 hpf
    refine hmem false ?_
    unfold ruleGrab
    rw [if_neg hnot, if_neg (by omega), if_pos ⟨h0, hpf⟩]

/-- C1 witness: the fist frame processed in TREE_SHAPE at now = 1600 re-emits
onPhotoGrab(false) with no state commit, via the amended theorem (rule 3
branch). -/
theorem C1_photoGrab_emission_witness :
    Event.photoGrab false ∈ [Event.photoGrab false] :=
  (C1_photoGrab_emission ⟨TreeState.TREE_SHAPE, 1000⟩ fistFrame 1600 (by decide)
      (by decide) ⟨TreeState.TREE_SHAPE, 1000⟩ [Event.photoGrab false]
      (by with_unfolding_all decide)).2.2
    (by with_unfolding_all decide) (by with_unfolding_all decide)
    (by with_unfolding_all decide)

/-- C2 counterexample: first conjunct — in SCATTERED with a hand present at
now = 1100, inside the 500 ms window since the last committed transition
(lastGestureTime = 1000), the tick emits nothing, so no onCameraMove fires
even though the claim requires it on every such tick; second conjunct — a
gate-passing pinch tick whose pre-tick state is SCATTERED (hand present)
commits PHOTO_VIEW and also emits no onCameraMove. -/
theorem C2_counterexample :
    processGestures ⟨TreeState.SCATTERED, 1000⟩ oneOpenFrame 1100 =
        Except.ok (⟨TreeState.SCATTERED, 1000⟩, []) ∧
    processGestures ⟨TreeState.SCATTERED, 1000⟩ pinchFrame 1600 =
        Except.ok (⟨TreeState.PHOTO_VIEW, 1600⟩,
          [Event.photoGrab true, Event.stateChange TreeState.PHOTO_VIEW]) := by
  constructor
  · with_unfolding_all decide
  · with_unfolding_all decide

/-- C2 (amended): onCameraMove fires exactly on the hand-present ticks that
pass the 500 ms rate-limit gate and on which the state after the tick's
transition logic is SCATTERED, with the wrist-derived delta; on gate-passing
ticks ending in any other state (and on ticks inside the window) no camera
event is emitted. -/
theorem C2_cameraMove_emission (st : MachineState) (lm : List Joint) (now : ℤ)
    (h : 21 ≤ lm.length) (hg : 500 ≤ now - st.lastGestureTime)
    (st' : MachineState) (evs : List Event)
    (hrun : processGestures st lm now = Except.ok (st', evs)) :
    (st'.currentState = TreeState.SCATTERED →
      Event.cameraMove ((1 / 2 - (frameOf lm h 0).x) * 4)
        ((1 / 2 - (frameOf lm h 0).y) * 2) ∈ evs) ∧
    (st'.currentState ≠ TreeState.SCATTERED → ∀ x y, Event.cameraMove x y ∉ evs) := by
  rw [processGestures_of_ge st lm now hg h] at hrun
  have hpair := ok_inv hrun
  have hst : (stepCore st (frameOf lm h) now).1 = st' := congrArg Prod.fst hpair
  have hevs : (stepCore st (frameOf lm h) now).2 = evs := congrArg Prod.snd hpair
  rw [stepCore_snd, hst] at hevs
  constructor
  · intro hsc
    rw [← hevs]
    refine List.mem_append.2 (Or.inr ?_)
    unfold cameraEvents
    rw [if_pos hsc]
    simp
  · intro hne x y hmem
    rw [← hevs] at hmem
    rcases List.mem_append.1 hmem with h' | h'
    · rcases List.mem_append.1 h' with h'' | h''
      · exact absurd h'' (cameraMove_not_mem_grab _ _ _ _ _)
      · revert h''
        by_cases hcm : ruleTarget st.currentState (fingersOpenCount (frameOf lm h))
            (isPinchingOf (frameOf lm h)) ≠ st.currentState
        · rw [if_pos hcm]
          simp
        · rw [if_neg hcm]
          simp
    · exact absurd h' (cameraMove_not_mem_camera_of_ne _ _ hne x y)

/-- C2 witness: the one-open-finger frame processed in SCATTERED at now = 600
fires the camera callback, via the amended theorem. -/
theorem C2_cameraMove_emission_witness :
    ∃ x y, Event.cameraMove x y ∈ [Event.cameraMove 2 1] :=
  ⟨_, _,
    (C2_cameraMove_emission ⟨TreeState.SCATTERED, 0⟩ oneOpenFrame 600 (by decide)
        (by decide) ⟨TreeState.SCATTERED, 0⟩ [Event.cameraMove 2 1]
        (by with_unfolding_all decide)).1 (by decide)⟩

/-- ratCast_dist2: the squared distance, read in the reals. -/
theorem ratCast_dist2 (p q : Joint) :
    ((dist2 p q : ℚ) : ℝ) = ((p.x : ℝ) - (q.x : ℝ)) ^ 2 + ((p.y : ℝ) - (q.y : ℝ)) ^ 2 := by
  unfold dist2
  push_cast
  ring

/-- dist2_cast_nonneg: squared distances are nonnegative. -/
theorem dist2_cast_nonneg (p q : Joint) : (0 : ℝ) ≤ ((dist2 p q : ℚ) : ℝ) := by
  rw [ratCast_dist2]
  positivity

/-- euclidDist_eq_sqrt: the Euclidean distance is the square root of dist2. -/
theorem euclidDist_eq_sqrt (p q : Joint) :
    euclidDist p q = Real.sqrt ((dist2 p q : ℚ) : ℝ) := by
  unfold euclidDist
  rw [ratCast_dist2]

/-- dist2_comm: squared distance is symmetric. -/
theorem dist2_comm (p q : Joint) : dist2 p q = dist2 q p := by
  unfold dist2
  ring

/-- fingerIsOpen_iff_euclid: the squared comparison used in the embedding is
exactly the source's hypot comparison `distTip > distKnuckle * 1.2` over
exact reals. -/
theorem fingerIsOpen_iff_euclid (w t k : Joint) :
    fingerIsOpen w t k = true ↔ (1.2 : ℝ) * euclidDist w k < euclidDist w t := by
  rw [fingerIsOpen, decide_eq_true_eq, euclidDist_eq_sqrt, euclidDist_eq_sqrt]
  rw [Real.lt_sqrt (by positivity)]
  rw [mul_pow, Real.sq_sqrt (dist2_cast_nonneg w k)]
  rw [dist2_comm k w, dist2_comm t w]
  rw [show (1.2 : ℝ) ^ 2 * ((dist2 w k : ℚ) : ℝ) =
      (((dist2 w k * (6 / 5 : ℚ) ^ 2 : ℚ)) : ℝ) by push_cast; ring_nf]
  exact Rat.cast_lt.symm

/-- isPinchingOf_iff_euclid: the squared comparison is exactly the source's
`pinchDist < 0.05` over exact reals. -/
theorem isPinchingOf_iff_euclid (f : Fin 21 → Joint) :
    isPinchingOf f = true ↔ euclidDist (f 4) (f 8) < (0.05 : ℝ) := by
  rw [isPinchingOf, decide_eq_true_eq, euclidDist_eq_sqrt]
  rw [Real.sqrt_lt' (by norm_num)]
  rw [show ((0.05 : ℝ)) ^ 2 = (((1 / 20 : ℚ) ^ 2 : ℚ) : ℝ) by push_cast; norm_num]
  exact Rat.cast_lt.symm

/-- C7: the pose classifier is a pure function of the frame; fingersOpen is
the count over exactly the four non-thumb fingers (the thumb never counted)
of fingers whose Euclidean wrist-to-tip distance exceeds 1.2 times the
Euclidean wrist-to-knuckle distance, hence lies in 0..4; and isPinching
holds iff the planar Euclidean distance between thumb tip (index 4) and
index fingertip (index 8) is strictly below 0.05. -/
theorem C7_pose_classifier :
    (∀ f : Fin 21 → Joint,
      fingersOpenCount f =
        (if fingerIsOpen (f 0) (f 8) (f 5) then 1 else 0) +
        (if fingerIsOpen (f 0) (f 12) (f 9) then 1 else 0) +
        (if fingerIsOpen (f 0) (f 16) (f 13) then 1 else 0) +
        (if fingerIsOpen (f 0) (f 20) (f 17) then 1 else 0) ∧
      fingersOpenCount f ≤ 4) ∧
    (∀ w t k : Joint,
      fingerIsOpen w t k = true ↔ (1.2 : ℝ) * euclidDist w k < euclidDist w t) ∧
    (∀ f : Fin 21 → Joint,
      isPinchingOf f = true ↔ euclidDist (f 4) (f 8) < (0.05 : ℝ)) := by
  refine ⟨?_, fingerIsOpen_iff_euclid, isPinchingOf_iff_euclid⟩
  intro f
  refine ⟨rfl, ?_⟩
  unfold fingersOpenCount
  split_ifs <;> norm_num

/-- C8: the camera mapper is pure and stateless: outside SCATTERED it emits
nothing for any wrist position; in SCATTERED it emits exactly the delta
((0.5 - wrist.x) * 4, (0.5 - wrist.y) * 2); a wrist at normalized
(0.25, 0.5) while SCATTERED yields onCameraMove(1.0, 0). -/
theorem C8_camera_mapper :
    (∀ w : Joint,
      cameraEvents TreeState.TREE_SHAPE w = [] ∧
      cameraEvents TreeState.PHOTO_VIEW w = [] ∧
      cameraEvents TreeState.SCATTERED w =
        [Event.cameraMove ((1 / 2 - w.x) * 4) ((1 / 2 - w.y) * 2)]) ∧
    cameraEvents TreeState.SCATTERED ⟨1 / 4, 1 / 2⟩ = [Event.cameraMove 1 0] := by
  constructor
  · intro w
    refine ⟨?_, ?_, ?_⟩
    · unfold cameraEvents
      rw [if_neg (by decide)]
    · unfold cameraEvents
      rw [if_neg (by decide)]
    · unfold cameraEvents
      rw [if_pos rfl]
  · with_unfolding_all decide

end GestureController
